import Mathlib

/-! Verification of the obd2_tool driver core.

Shallow embedding of the ISO-TP reassembler (`src/driver/isotp.py`), the UDS
response decoder (`src/driver/isotp.py`), and the ELM327 adapter controller
(`src/driver/elm327.py`), together with theorems settling the specification
claims about them.

Bytes are modelled as `Nat` values (a Python `bytearray` element is always in
`0..255`; the operations below use explicit masks exactly where the source
does).  Python exceptions are modelled with `Except`: `ValueError` and
`IndexError` from the protocol code become `PyError`; the driver-level
exception classes become `DriverError`.  Exception message texts that the
source builds with f-string interpolation are elided to fixed strings; no
claim depends on message contents.
-/

deriving instance DecidableEq for Except

/-- Python exceptions raised by the ISO-TP / UDS code (`isotp.py`). -/
inductive PyError where
  | valueError (msg : String)
  | indexError
deriving DecidableEq, Repr

/-- High nibble of a byte: `(b & 0xF0) >> 4` (`isotp.py` line 72). -/
def highNibble (b : Nat) : Nat := (b &&& 0xF0) >>> 4

/-- Low nibble of a byte: `b & 0x0F`. -/
def lowNibble (b : Nat) : Nat := b &&& 0x0F

/-- One ISO-TP frame with parsed PCI fields (`IsoTpFrame` in `isotp.py`). -/
structure IsoTpFrame where
  frame_type : Nat
  data : List Nat
  sequence_number : Option Nat
  length : Option Nat
deriving DecidableEq, Repr

/-- `IsoTpFrame.__init__` (`isotp.py` lines 58-98).  An empty input raises
`ValueError`; a First frame shorter than two bytes raises `IndexError`
(reading `frame_bytes[1]`).  Python slices never fail: the Single-frame slice
`frame_bytes[1:1+L]` truncates to the available bytes. -/
def IsoTpFrame.init (frame_bytes : List Nat) : Except PyError IsoTpFrame :=
  match frame_bytes with
  | [] => .error (.valueError "Frame data cannot be empty")
  | b0 :: rest =>
    let ft := highNibble b0
    if ft = 0 then
      -- Single frame: 0x0L DD DD DD...
      .ok ⟨ft, rest.take (lowNibble b0), none, some (lowNibble b0)⟩
    else if ft = 1 then
      -- First frame: 0x1L LL DD DD DD...
      match rest with
      | [] => .error .indexError
      | b1 :: rest2 =>
        .ok ⟨ft, rest2, none, some ((lowNibble b0 <<< 8) ||| b1)⟩
    else if ft = 2 then
      -- Consecutive frame: 0x2N DD DD DD...
      .ok ⟨ft, rest, some (lowNibble b0), none⟩
    else
      -- Flow control (0x3F BS ST) and any other PCI kind: no fields are set.
      .ok ⟨ft, [], none, none⟩

/-- Assembler state (`IsoTpMessage` in `isotp.py`). -/
structure IsoTpMessage where
  payload : List Nat
  expected_length : Option Nat
  is_complete : Bool
  next_sequence : Nat
deriving DecidableEq, Repr

/-- `IsoTpMessage.__init__` (`isotp.py` lines 113-120). -/
def IsoTpMessage.initial : IsoTpMessage := ⟨[], none, false, 1⟩

/-- `IsoTpMessage.add_frame` (`isotp.py` lines 122-171). -/
def IsoTpMessage.add_frame (m : IsoTpMessage) (frame : IsoTpFrame) :
    Except PyError IsoTpMessage :=
  if m.is_complete then
    .error (.valueError "Message is already complete")
  else if frame.frame_type = 0 then
    -- Single frame contains complete message
    .ok { payload := frame.data, expected_length := frame.length,
          is_complete := true, next_sequence := m.next_sequence }
  else if frame.frame_type = 1 then
    -- First frame starts multi-frame message
    if m.payload.length > 0 then
      .error (.valueError "First frame received but message already started")
    else
      let payload := m.payload ++ frame.data
      let complete :=
        match frame.length with
        | some el => decide (el ≤ payload.length)
        | none => false
      .ok { payload := payload, expected_length := frame.length,
            is_complete := complete, next_sequence := 1 }
  else if frame.frame_type = 2 then
    -- Consecutive frame adds to existing message
    match m.expected_length with
    | none => .error (.valueError "Consecutive frame received without first frame")
    | some el =>
      if frame.sequence_number ≠ some m.next_sequence then
        .error (.valueError "Expected sequence number mismatch")
      else
        let payload := m.payload ++ frame.data
        let ns := (m.next_sequence + 1) % 16
        if el ≤ payload.length then
          .ok { payload := payload.take el, expected_length := some el,
                is_complete := true, next_sequence := ns }
        else
          .ok { payload := payload, expected_length := some el,
                is_complete := false, next_sequence := ns }
  else
    -- Frame types other than 0/1/2 fall through every branch: no mutation.
    .ok m

/-- `IsoTpMessage.get_payload` (`isotp.py` lines 173-185). -/
def IsoTpMessage.get_payload (m : IsoTpMessage) : Except PyError (List Nat) :=
  if m.is_complete then .ok m.payload
  else .error (.valueError "Message is not complete yet")

/-- Value of a hexadecimal digit character, if it is one. -/
def hexVal (c : Char) : Option Nat :=
  if '0' ≤ c ∧ c ≤ '9' then some (c.toNat - 48)
  else if 'a' ≤ c ∧ c ≤ 'f' then some (c.toNat - 87)
  else if 'A' ≤ c ∧ c ≤ 'F' then some (c.toNat - 55)
  else none

/-- ASCII whitespace as recognised by CPython (`Py_ISSPACE`). -/
def pyIsSpace (c : Char) : Bool :=
  c = ' ' ∨ c = '\t' ∨ c = '\n' ∨ c = '\r' ∨ c = '\x0b' ∨ c = '\x0c'

/-- Core of `bytearray.fromhex`: ASCII whitespace is skipped between byte
pairs; each byte requires two consecutive hex digits; anything else raises
`ValueError` (CPython ≥ 3.7 semantics). -/
def fromhexChars : List Char → Except PyError (List Nat)
  | [] => .ok []
  | c :: rest =>
    if pyIsSpace c then fromhexChars rest
    else
      match hexVal c with
      | none => .error (.valueError "non-hexadecimal number found in fromhex() arg")
      | some hi =>
        match rest with
        | [] => .error (.valueError "non-hexadecimal number found in fromhex() arg")
        | d :: rest2 =>
          match hexVal d with
          | none => .error (.valueError "non-hexadecimal number found in fromhex() arg")
          | some lo =>
            match fromhexChars rest2 with
            | .ok tail => .ok ((16 * hi + lo) :: tail)
            | .error e => .error e

/-- `bytearray.fromhex` on a string. -/
def fromhex (s : String) : Except PyError (List Nat) := fromhexChars s.data

/-- The frame-feeding loop of `parse_isotp_frames` (`isotp.py` lines 203-208). -/
def runFrames (m : IsoTpMessage) : List String → Except PyError IsoTpMessage
  | [] => .ok m
  | s :: rest =>
    match fromhex s with
    | .error e => .error e
    | .ok frame_bytes =>
      match IsoTpFrame.init frame_bytes with
      | .error e => .error e
      | .ok frame =>
        match m.add_frame frame with
        | .error e => .error e
        | .ok m' => runFrames m' rest

/-- `parse_isotp_frames` (`isotp.py` lines 188-210). -/
def parse_isotp_frames (frame_data_list : List String) : Except PyError (List Nat) :=
  match runFrames IsoTpMessage.initial frame_data_list with
  | .error e => .error e
  | .ok m => m.get_payload

/-- The same feeding loop over already-decoded frame bytes (used to state
properties independently of the hex decoding step). -/
def addFrames (m : IsoTpMessage) : List (List Nat) → Except PyError IsoTpMessage
  | [] => .ok m
  | bs :: rest =>
    match IsoTpFrame.init bs with
    | .error e => .error e
    | .ok frame =>
      match m.add_frame frame with
      | .error e => .error e
      | .ok m' => addFrames m' rest

/-- Hex-decode every frame string of a list (the `bytearray.fromhex` calls of
`parse_isotp_frames`, collected). -/
def decodeFrames : List String → Except PyError (List (List Nat))
  | [] => .ok []
  | s :: rest =>
    match fromhex s with
    | .error e => .error e
    | .ok bs =>
      match decodeFrames rest with
      | .ok t => .ok (bs :: t)
      | .error e => .error e

/-- Structured UDS response (`IsoTpResponse` in `isotp.py`). -/
structure IsoTpResponse where
  service_id : Nat
  data_identifier : Option Nat
  payload : List Nat
deriving DecidableEq, Repr

/-- Services that include a 2-byte data identifier (`isotp.py` line 234). -/
def services_with_data_id : List Nat := [0x22, 0x62, 0x2E, 0x6E, 0x2F, 0x6F]

/-- `parse_uds_response` (`isotp.py` lines 213-257). -/
def parse_uds_response (payload : List Nat) : Except PyError IsoTpResponse :=
  match payload with
  | [] => .error (.valueError "Payload too short for UDS response")
  | service_id :: rest =>
    if service_id ∈ services_with_data_id then
      match rest with
      | b1 :: b2 :: rest2 =>
        .ok ⟨service_id, some ((b1 <<< 8) ||| b2), rest2⟩
      | _ => .error (.valueError "Payload too short for service with data identifier")
    else
      .ok ⟨service_id, none, rest⟩

/-! The ELM327 adapter controller (`src/driver/elm327.py`). -/

/-- Driver-level exceptions (`exceptions.py`), as surfaced by `ELM327`:
`NotConnectedException`, `NoResponseException` (carrying the raw reply),
`InvalidResponseException`, and a plain Python error propagating out of
`parse_uds_response` (the spec's `UdsMalformed`). -/
inductive DriverError where
  | notConnected
  | noResponse (raw : String)
  | invalidResponse (msg : String)
  | pyError (e : PyError)
deriving DecidableEq, Repr

/-- Whether the first character list is an initial segment of the second. -/
def startsWithChars : List Char → List Char → Bool
  | [], _ => true
  | _ :: _, [] => false
  | a :: as, b :: bs => (a = b) && startsWithChars as bs

/-- Whether `sub` occurs contiguously inside the second list. -/
def occursIn (sub : List Char) : List Char → Bool
  | [] => sub.isEmpty
  | b :: bs => startsWithChars sub (b :: bs) || occursIn sub bs

/-- Python `sub in s` substring test. -/
def pyIn (sub s : String) : Bool := occursIn sub.data s.data

/-- Python `str.replace`: replace non-overlapping occurrences of `pat`, left
to right.  The `fuel` argument (instantiated with the string length, an upper
bound on the number of steps, each of which consumes at least one character)
only makes the recursion structural.  Callers in this file never pass an
empty pattern. -/
def pyReplaceAux (pat rep : List Char) : List Char → Nat → List Char
  | s, 0 => s
  | [], _ => []
  | c :: cs, fuel + 1 =>
    if startsWithChars pat (c :: cs) then
      rep ++ pyReplaceAux pat rep (List.drop pat.length (c :: cs)) fuel
    else
      c :: pyReplaceAux pat rep cs fuel

/-- Python `s.replace(pat, rep)`. -/
def pyReplace (s pat rep : String) : String :=
  ⟨pyReplaceAux pat.data rep.data s.data s.data.length⟩

/-- Python `str.split` with a non-empty separator (fuel as in `pyReplaceAux`). -/
def pySplitAux (sep : List Char) : List Char → Nat → List Char → List String
  | [], _, acc => [⟨acc⟩]
  | c :: cs, 0, acc => [⟨acc ++ c :: cs⟩]
  | c :: cs, fuel + 1, acc =>
    if startsWithChars sep (c :: cs) then
      (⟨acc⟩ : String) :: pySplitAux sep (List.drop sep.length (c :: cs)) fuel []
    else
      pySplitAux sep cs fuel (acc ++ [c])

/-- Python `s.split(sep)` (always a non-empty list). -/
def pySplit (s sep : String) : List String :=
  pySplitAux sep.data s.data s.data.length []

/-- Python `s.strip()`: remove leading and trailing whitespace. -/
def pyStrip (s : String) : String :=
  ⟨((s.data.dropWhile pyIsSpace).reverse.dropWhile pyIsSpace).reverse⟩

/-- `error_keywords` of `ELM327.send_message` (`elm327.py` lines 180-190). -/
def error_keywords : List String :=
  ["NO DATA", "ERROR", "?", "STOPPED", "UNABLE TO CONNECT",
   "BUS INIT", "CAN ERROR", "BUFFER FULL", "<DATA ERROR"]

/-- The keyword scan of `send_message` (`elm327.py` lines 192-194): the loop
raises on the first keyword contained in the reply, i.e. exactly when some
keyword is contained in it. -/
def checkErrorKeywords (s : String) : Bool :=
  error_keywords.any (fun kw => pyIn kw s)

/-- `informational_messages` of `ELM327._parse_response` (`elm327.py` 219-224). -/
def informational_messages : List String :=
  ["SEARCHING...", "BUSINIT:", "BUSINIT...", "OK"]

/-- Prompt and informational-token removal of `_parse_response`
(`elm327.py` lines 215-227): drop `>`, then each informational token in
order, each via Python `str.replace` (all non-overlapping occurrences,
left to right). -/
def cleanResponse (response : String) : String :=
  informational_messages.foldl (fun acc msg => pyReplace acc msg "")
    (pyReplace response ">" "")

/-- Line tokenization of `_parse_response` (`elm327.py` lines 229-233):
collapse doubled CR/LF, split on CR; if that yields a single piece, split the
cleaned text on LF instead. -/
def splitLines (cleaned : String) : List String :=
  let lines := pySplit (pyReplace (pyReplace cleaned "\r\r" "\r") "\n\n" "\n") "\r"
  if lines.isEmpty ∨ lines.length = 1 then pySplit cleaned "\n" else lines

/-- Validity of `int(s, 16)` for a Python `str` made of ASCII characters:
optional surrounding whitespace, optional sign, optional `0x`/`0X` prefix
(optionally followed by one underscore), then hex digits with single
underscores allowed between digits. -/
def hexDigitsRest : List Char → Bool
  | [] => true
  | '_' :: c :: rest => (hexVal c).isSome && hexDigitsRest rest
  | ['_'] => false
  | c :: rest => (hexVal c).isSome && hexDigitsRest rest

/-- A non-empty run of hex digits with legal underscores. -/
def hexNumPart : List Char → Bool
  | [] => false
  | c :: rest => (hexVal c).isSome && hexDigitsRest rest

/-- Whether Python `int(s, 16)` succeeds (ASCII inputs). -/
def pyIntValid16 (s : String) : Bool :=
  let t := ((s.data.dropWhile pyIsSpace).reverse.dropWhile pyIsSpace).reverse
  let t := match t with
    | '+' :: r => r
    | '-' :: r => r
    | r => r
  match t with
  | '0' :: x :: rest =>
    if x = 'x' ∨ x = 'X' then
      match rest with
      | '_' :: r => hexNumPart r
      | r => hexNumPart r
    else hexNumPart ('0' :: x :: rest)
  | t => hexNumPart t

/-- The per-line frame extraction loop of `_parse_response` (`elm327.py`
lines 235-258): strip each line, skip empty ones, drop interior spaces,
require at least 3 characters whose leading 3 parse as hex (the CAN ID), and
keep the remainder when it holds at least 2 characters. -/
def extractFrames (cleaned : String) : List String :=
  (splitLines cleaned).foldl
    (fun acc line =>
      let line := pyStrip line
      if line = "" then acc
      else
        let line_no_spaces := pyReplace line " " ""
        if 3 ≤ line_no_spaces.data.length then
          if pyIntValid16 ⟨line_no_spaces.data.take 3⟩ then
            let frame_data : String := ⟨line_no_spaces.data.drop 3⟩
            if frame_data ≠ "" ∧ 2 ≤ frame_data.data.length then acc ++ [frame_data]
            else acc
          else acc
        else acc)
    []

/-- The whole-reply cleanup of the fallback path (`elm327.py` line 262),
applied to the already token-stripped text. -/
def responseClean (cleaned : String) : String :=
  pyReplace (pyReplace (pyReplace cleaned "\r" "") "\n" "") " " ""

/-- `ELM327._parse_response` (`elm327.py` lines 202-274). -/
def parse_response (response : String) : Except DriverError (List Nat) :=
  let cleaned := cleanResponse response
  let frames := extractFrames cleaned
  if frames.isEmpty then
    match fromhex (responseClean cleaned) with
    | .ok d => .ok d
    | .error _ => .error (.invalidResponse "Invalid response format")
  else
    match parse_isotp_frames frames with
    | .ok p => .ok p
    | .error _ => .error (.invalidResponse "ISO-TP parsing error")

/-- The reply-processing tail of `ELM327.send_message` (`elm327.py` lines
179-200): keyword scan, `_parse_response`, `parse_uds_response`. -/
def processResponse (response_str : String) : Except DriverError IsoTpResponse :=
  if checkErrorKeywords response_str then
    .error (.noResponse response_str)
  else
    match parse_response response_str with
    | .error e => .error e
    | .ok raw =>
      match parse_uds_response raw with
      | .ok r => .ok r
      | .error e => .error (.pyError e)

/-- A scripted serial connection (`MockConnection` in `mock_serial.py`),
extended with an explicit log of the byte strings passed to `write` so that
theorems can observe the command lines the controller writes.  `write`
strips the written line, looks the command up in the script (first match;
unknown commands answer `?\r\r>`), and appends the reply to the read buffer;
`read` drains up to `size` characters from the buffer. -/
structure MockSerial where
  responses : List (String × String)
  written : List String
  buffer : String

/-- Script lookup with the mock's default reply (`mock_serial.py` lines 80-83). -/
def lookupResponse (responses : List (String × String)) (cmd : String) : String :=
  match responses.find? (fun p => p.1 = cmd) with
  | some p => p.2
  | none => "?\r\r>"

/-- `MockConnection.write` (`mock_serial.py` lines 65-86). -/
def MockSerial.write (s : MockSerial) (data : String) : MockSerial :=
  { s with written := s.written ++ [data],
           buffer := s.buffer ++ lookupResponse s.responses (pyStrip data) }

/-- `MockConnection.read` (`mock_serial.py` lines 88-106). -/
def MockSerial.read (s : MockSerial) (size : Nat) : String × MockSerial :=
  (⟨s.buffer.data.take size⟩, { s with buffer := ⟨s.buffer.data.drop size⟩ })

/-- `ELM327._send_command` (`elm327.py` lines 123-142): write the command
with a trailing CR, read up to 1024 bytes, return the stripped reply. -/
def sendCommand (s : MockSerial) (command : String) : String × MockSerial :=
  let s1 := s.write (command ++ "\r")
  let (response, s2) := s1.read 1024
  (pyStrip response, s2)

/-- Controller state: `ELM327.serial_connection` (`None` before a connection
is established). -/
structure ELM327State where
  serial : Option MockSerial

/-- The six-command initialization sequence of `ELM327._connect`
(`elm327.py` lines 99-121), run against a scripted serial connection.
The `time.sleep` settling delays have no observable effect in this model. -/
def ELM327.connectSerial (responses : List (String × String)) : MockSerial :=
  let s0 : MockSerial := ⟨responses, [], ""⟩
  let s1 := (sendCommand s0 "ATZ").2
  let s2 := (sendCommand s1 "ATE0").2
  let s3 := (sendCommand s2 "ATL0").2
  let s4 := (sendCommand s3 "ATS0").2
  let s5 := (sendCommand s4 "ATH1").2
  (sendCommand s5 "ATSP0").2

/-- `ELM327._connect`: afterwards `serial_connection` is set. -/
def ELM327.connect (responses : List (String × String)) : ELM327State :=
  { serial := some (ELM327.connectSerial responses) }

/-- Uppercase hex rendering of `n` padded to at least `width` digits:
Python `f"{n:0{width}X}"`. -/
def natToHexPad (width n : Nat) : String :=
  let ds := (Nat.toDigits 16 n).map Char.toUpper
  ⟨List.replicate (width - ds.length) '0' ++ ds⟩

/-- `ELM327.send_message` (`elm327.py` lines 144-200) over the scripted
serial connection: raise `NotConnectedException` without a connection, send
the `ATSH` header when a CAN ID is given, format the request
(`f"{pid:02X}"` for UDS, `f"01{pid:02X}"` for OBD-II), send it, and process
the reply. -/
def ELM327.sendMessage (st : ELM327State) (can_id : Option Nat) (pid : Nat) :
    Except DriverError IsoTpResponse × ELM327State :=
  match st.serial with
  | none => (.error .notConnected, st)
  | some s =>
    let step :=
      match can_id with
      | some cid => ((sendCommand s ("ATSH" ++ natToHexPad 3 cid)).2, natToHexPad 2 pid)
      | none => (s, "01" ++ natToHexPad 2 pid)
    let (response_str, s2) := sendCommand step.1 step.2
    (processResponse response_str, { serial := some s2 })

/-! Predicates stating the claims' premises. -/

/-- A run of Consecutive frames continuing a multi-frame message:
`ConsecChain rest seq acc L` says the frames of `rest` carry sequence
numbers `seq, (seq+1) % 16, …`, the payload accumulated so far has `acc`
bytes (still short of `L` whenever another frame follows), and the declared
total length `L` is reached exactly when the list ends. -/
inductive ConsecChain : List (List Nat) → Nat → Nat → Nat → Prop where
  | done (seq acc L : Nat) : L ≤ acc → ConsecChain [] seq acc L
  | step (b0 : Nat) (ds : List Nat) (rest : List (List Nat)) (seq acc L : Nat) :
      acc < L → highNibble b0 = 2 → lowNibble b0 = seq →
      ConsecChain rest ((seq + 1) % 16) (acc + ds.length) L →
      ConsecChain ((b0 :: ds) :: rest) seq acc L

/-- A well-formed ISO-TP message as a list of decoded frames: either one
Single frame carrying exactly its declared `L` data bytes, or a First frame
followed by correctly numbered Consecutive frames whose accumulated data
reaches the declared 12-bit length exactly at the last frame (with no
Consecutive frames at all when the First frame's inline data already
reaches it).  The second component is the declared length. -/
inductive WellFormedIsoTp : List (List Nat) → Nat → Prop where
  | single (b0 : Nat) (ds : List Nat) :
      highNibble b0 = 0 → ds.length = lowNibble b0 →
      WellFormedIsoTp [b0 :: ds] (lowNibble b0)
  | multi (b0 b1 : Nat) (ds : List Nat) (rest : List (List Nat)) :
      highNibble b0 = 1 →
      ConsecChain rest 1 ds.length ((lowNibble b0 <<< 8) ||| b1) →
      WellFormedIsoTp ((b0 :: b1 :: ds) :: rest) ((lowNibble b0 <<< 8) ||| b1)

/-- Length of the payload `parse_isotp_frames` actually produces on a
well-formed message of declared length `L`: the declared length, except that
a message consisting of a First frame alone keeps all its inline data
(which may exceed `L`, since the First-frame branch does not truncate). -/
def wfLen (bss : List (List Nat)) (L : Nat) : Nat :=
  match bss with
  | [f] => if highNibble (f.headD 0) = 1 then max L (f.length - 2) else L
  | _ => L

/-- The assembler-invariant violations that `add_frame` punishes with
`ValueError`, for a frame decoded to bytes `bbs` arriving in state `m`:
empty frame bytes; any frame once the message is complete; a Consecutive
frame with no First frame seen or with the wrong sequence number; a First
frame after data has already been accumulated.  (A Single frame arriving
before completion is *not* a violation: the code accepts it.) -/
def IsoTpViolation (m : IsoTpMessage) (bbs : List Nat) : Prop :=
  bbs = [] ∨
  (m.is_complete = true ∧ ∃ f, IsoTpFrame.init bbs = .ok f) ∨
  (m.is_complete = false ∧ ∃ b0 rest, bbs = b0 :: rest ∧ highNibble b0 = 2 ∧
    (m.expected_length = none ∨ lowNibble b0 ≠ m.next_sequence)) ∨
  (m.is_complete = false ∧ ∃ b0 b1 rest, bbs = b0 :: b1 :: rest ∧
    highNibble b0 = 1 ∧ m.payload ≠ [])

/-! Theorems settling the claims. -/

/-- Claim C4 (confirmed).  For every payload `P` with `|P| ≥ 1` given to
`parse_uds_response`: if `P[0]` is outside the data-identifier set the
result has no data identifier and payload `P[1..]` (length `|P| - 1`); if
`P[0]` is in the set and `|P| ≥ 3` the result has
`data_identifier = (P[1] << 8) | P[2]` and payload `P[3..]` (length
`|P| - 3`); if `P[0]` is in the set and `|P| < 3` the decoder fails with
`ValueError` (the spec's `UdsMalformed`). -/
theorem C4_uds_decoder (P : List Nat) (s : Nat) (rest : List Nat)
    (hP : P = s :: rest) :
    (s ∉ services_with_data_id →
      parse_uds_response P = .ok ⟨s, none, rest⟩ ∧ rest.length = P.length - 1) ∧
    (s ∈ services_with_data_id →
      (∀ b1 b2 r2, rest = b1 :: b2 :: r2 →
        parse_uds_response P = .ok ⟨s, some ((b1 <<< 8) ||| b2), r2⟩ ∧
          r2.length = P.length - 3) ∧
      (rest.length < 2 → ∃ msg, parse_uds_response P = .error (.valueError msg))) := by
  subst hP
  refine ⟨fun hns => ⟨?_, ?_⟩, fun hs => ⟨fun b1 b2 r2 hr => ⟨?_, ?_⟩, fun hlen => ?_⟩⟩
  · simp [parse_uds_response, hns]
  · simp
  · subst hr; simp [parse_uds_response, hs]
  · subst hr; simp
  · match rest, hlen with
    | [], _ =>
      exact ⟨"Payload too short for service with data identifier",
        by simp [parse_uds_response, hs]⟩
    | [b1], _ =>
      exact ⟨"Payload too short for service with data identifier",
        by simp [parse_uds_response, hs]⟩

/-- Witness for C4: both decoder shapes and the too-short failure at
concrete inputs. -/
theorem C4_uds_decoder_witness :
    (parse_uds_response [0x62, 0x01, 0x02, 0x05] =
      .ok ⟨0x62, some ((0x01 <<< 8) ||| 0x02), [0x05]⟩ ∧
      ([0x05] : List Nat).length = [0x62, 0x01, 0x02, 0x05].length - 3) ∧
    (parse_uds_response [0x7F, 0x22, 0x31] = .ok ⟨0x7F, none, [0x22, 0x31]⟩ ∧
      ([0x22, 0x31] : List Nat).length = [0x7F, 0x22, 0x31].length - 1) ∧
    (∃ msg, parse_uds_response [0x62, 0x01] = .error (.valueError msg)) := by
  refine ⟨?_, ?_, ?_⟩
  · exact ((C4_uds_decoder [0x62, 0x01, 0x02, 0x05] 0x62 [0x01, 0x02, 0x05] rfl).2
      (by decide)).1 0x01 0x02 [0x05] rfl
  · exact (C4_uds_decoder [0x7F, 0x22, 0x31] 0x7F [0x22, 0x31] rfl).1 (by decide)
  · exact ((C4_uds_decoder [0x62, 0x01] 0x62 [0x01] rfl).2 (by decide)).2 (by decide)

/-- Claim C5 (confirmed).  The six recorded frames assemble to the 39-byte
payload `62 01 02 FF FF FF FF` followed by 32 × `BC`, and the UDS decoder
splits it into `service_id = 0x62`, `data_identifier = 0x0102`, and a
36-byte payload `FF FF FF FF` followed by 32 × `BC`. -/
theorem C5_concrete_scenario :
    parse_isotp_frames
        ["1027620102FFFFFF", "21FFBCBCBCBCBCBC", "22BCBCBCBCBCBCBC",
         "23BCBCBCBCBCBCBC", "24BCBCBCBCBCBCBC", "25BCBCBCBCBCAAAA"] =
      .ok ([0x62, 0x01, 0x02] ++ List.replicate 4 0xFF ++ List.replicate 32 0xBC) ∧
    ([0x62, 0x01, 0x02] ++ List.replicate 4 0xFF ++ List.replicate 32 0xBC).length = 39 ∧
    parse_uds_response
        ([0x62, 0x01, 0x02] ++ List.replicate 4 0xFF ++ List.replicate 32 0xBC) =
      .ok ⟨0x62, some 0x0102, List.replicate 4 0xFF ++ List.replicate 32 0xBC⟩ ∧
    (List.replicate 4 0xFF ++ List.replicate 32 0xBC).length = 36 := by
  decide

/-- Claim C8 (corrected), counterexample: a Single frame declaring 5 data
bytes but carrying none is accepted with `data = []`, so `|data|` is 0, not
the declared `L = 5` the claim asserts for every input. -/
theorem C8_counterexample :
    IsoTpFrame.init [0x05] = .ok ⟨0, [], none, some 5⟩ ∧
    ([] : List Nat).length ≠ lowNibble 0x05 := by
  decide

/-- Claim C8 (corrected), amended claim: for a Single frame `b0 :: rest`
(high nibble of `b0` is 0), construction succeeds and the data is the slice
`rest[:L]`, so `|data| = min L |rest|` — equal to the declared `L` only
when the input carries at least `L` data bytes. -/
theorem C8_single_frame_data (b0 : Nat) (rest : List Nat) (f : IsoTpFrame)
    (h0 : highNibble b0 = 0) (hf : IsoTpFrame.init (b0 :: rest) = .ok f) :
    f.frame_type = 0 ∧ f.data = rest.take (lowNibble b0) ∧
    f.data.length = min (lowNibble b0) rest.length ∧
    f.length = some (lowNibble b0) := by
  simp only [IsoTpFrame.init, h0, if_pos, Except.ok.injEq] at hf
  subst hf
  simp [h0, List.length_take]

/-- Witness for C8: the amended statement at `b0 = 0x05`,
`rest = [0xAA, 0xBB]` (fewer than the declared 5 bytes). -/
theorem C8_single_frame_data_witness :
    (IsoTpFrame.mk 0 [0xAA, 0xBB] none (some 5)).frame_type = 0 ∧
    (IsoTpFrame.mk 0 [0xAA, 0xBB] none (some 5)).data =
      [0xAA, 0xBB].take (lowNibble 0x05) ∧
    (IsoTpFrame.mk 0 [0xAA, 0xBB] none (some 5)).data.length =
      min (lowNibble 0x05) [0xAA, 0xBB].length ∧
    (IsoTpFrame.mk 0 [0xAA, 0xBB] none (some 5)).length = some (lowNibble 0x05) :=
  C8_single_frame_data 0x05 [0xAA, 0xBB] _ (by decide) (by decide)

/-- Claim C9 (confirmed).  A frame whose first byte has high nibble 4..15 is
constructed with empty data and no sequence number or length, and feeding
it to `add_frame` on an incomplete message succeeds and leaves the
assembler state unchanged. -/
theorem C9_unknown_frame_type (b0 : Nat) (rest : List Nat) (f : IsoTpFrame)
    (h4 : 4 ≤ highNibble b0) (hf : IsoTpFrame.init (b0 :: rest) = .ok f) :
    f = ⟨highNibble b0, [], none, none⟩ ∧
    ∀ m : IsoTpMessage, m.is_complete = false → m.add_frame f = .ok m := by
  have h0 : ¬ highNibble b0 = 0 := by omega
  have h1 : ¬ highNibble b0 = 1 := by omega
  have h2 : ¬ highNibble b0 = 2 := by omega
  simp only [IsoTpFrame.init, h0, h1, h2, if_false, Except.ok.injEq] at hf
  subst hf
  refine ⟨rfl, fun m hm => ?_⟩
  simp [IsoTpMessage.add_frame, hm, h0, h1, h2]

/-- Witness for C9: frame type 4 (`b0 = 0x4A`) against the fresh assembler. -/
theorem C9_unknown_frame_type_witness :
    (IsoTpFrame.mk 4 [] none none = ⟨highNibble 0x4A, [], none, none⟩) ∧
    IsoTpMessage.initial.add_frame ⟨4, [], none, none⟩ = .ok IsoTpMessage.initial := by
  have h := C9_unknown_frame_type 0x4A [0xFF] ⟨4, [], none, none⟩ (by decide) (by decide)
  exact ⟨h.1, h.2 IsoTpMessage.initial rfl⟩

/-- Claim C3 (corrected), counterexample: a First frame declaring total
length 2 but carrying 3 inline bytes completes the message immediately with
a 3-byte payload — `is_complete` is set with `|payload| = 3 ≠ 2 =
expected_length`, and nothing is truncated. -/
theorem C3_counterexample :
    IsoTpFrame.init [0x10, 0x02, 0xAA, 0xBB, 0xCC] =
      .ok ⟨1, [0xAA, 0xBB, 0xCC], none, some 2⟩ ∧
    IsoTpMessage.initial.add_frame ⟨1, [0xAA, 0xBB, 0xCC], none, some 2⟩ =
      .ok ⟨[0xAA, 0xBB, 0xCC], some 2, true, 1⟩ ∧
    ([0xAA, 0xBB, 0xCC] : List Nat).length ≠ 2 := by
  decide

/-- Claim C3 (corrected), amended claim: when `add_frame` turns an incomplete
message complete, the payload length equals `expected_length` exactly if
completion came from a Consecutive frame (which truncates); from a First
frame the payload is the untruncated inline data, of length at least
`expected_length`; from a Single frame the payload is the frame's data,
whatever its length. -/
theorem C3_completion_length (m : IsoTpMessage) (f : IsoTpFrame) (m' : IsoTpMessage)
    (hnc : m.is_complete = false) (h : m.add_frame f = .ok m')
    (hc : m'.is_complete = true) :
    (f.frame_type = 2 → ∃ L, m'.expected_length = some L ∧ m'.payload.length = L) ∧
    (f.frame_type = 1 → ∃ L, m'.expected_length = some L ∧ L ≤ m'.payload.length) ∧
    (f.frame_type = 0 → m'.payload = f.data ∧ m'.expected_length = f.length) := by
  unfold IsoTpMessage.add_frame at h
  rw [hnc] at h
  simp only [Bool.false_eq_true, if_false] at h
  by_cases h0 : f.frame_type = 0
  · rw [if_pos h0] at h
    simp only [Except.ok.injEq] at h
    subst h
    refine ⟨fun h2 => by omega, fun h1 => by omega, fun _ => ⟨rfl, rfl⟩⟩
  · rw [if_neg h0] at h
    by_cases h1 : f.frame_type = 1
    · rw [if_pos h1] at h
      by_cases hpl : m.payload.length > 0
      · rw [if_pos hpl] at h; cases h
      · rw [if_neg hpl] at h
        simp only [Except.ok.injEq] at h
        subst h
        cases hl : f.length with
        | none => rw [hl] at hc; simp at hc
        | some el =>
          rw [hl] at hc
          simp only [decide_eq_true_eq] at hc
          refine ⟨fun h2 => by omega, fun _ => ⟨el, ?_, hc⟩, fun hz => by omega⟩
          simp [hl]
    · rw [if_neg h1] at h
      by_cases h2 : f.frame_type = 2
      · rw [if_pos h2] at h
        cases he : m.expected_length with
        | none => rw [he] at h; cases h
        | some el =>
          rw [he] at h
          simp only [] at h
          by_cases hseq : f.sequence_number ≠ some m.next_sequence
          · rw [if_pos hseq] at h; cases h
          · rw [if_neg hseq] at h
            by_cases hle : el ≤ (m.payload ++ f.data).length
            · rw [if_pos hle] at h
              simp only [Except.ok.injEq] at h
              subst h
              refine ⟨fun _ => ⟨el, rfl, ?_⟩, fun hx => by omega, fun hx => by omega⟩
              simp only [List.length_take]
              omega
            · rw [if_neg hle] at h
              simp only [Except.ok.injEq] at h
              subst h
              simp at hc
      · rw [if_neg h2] at h
        simp only [Except.ok.injEq] at h
        subst h
        rw [hnc] at hc
        cases hc

/-- Witness for C3: completion by the final Consecutive frame at a concrete
input — the truncated payload has exactly the expected length. -/
theorem C3_completion_length_witness :
    ∃ L, (IsoTpMessage.mk [0xAA, 0xBB] (some 2) true 2).expected_length = some L ∧
      (IsoTpMessage.mk [0xAA, 0xBB] (some 2) true 2).payload.length = L :=
  (C3_completion_length ⟨[0xAA], some 2, false, 1⟩ ⟨2, [0xBB, 0xCC], some 1, none⟩
    ⟨[0xAA, 0xBB], some 2, true, 2⟩ rfl (by decide) rfl).1 rfl

/-- `runFrames` over an appended list runs the prefix first. -/
theorem runFrames_append (m : IsoTpMessage) (l1 l2 : List String) :
    runFrames m (l1 ++ l2) =
      match runFrames m l1 with
      | .ok m' => runFrames m' l2
      | .error e => .error e := by
  induction l1 generalizing m with
  | nil => simp [runFrames]
  | cons s rest ih =>
    cases hfx : fromhex s with
    | error e => simp [runFrames, hfx]
    | ok bs =>
      cases hin : IsoTpFrame.init bs with
      | error e => simp [runFrames, hfx, hin]
      | ok f =>
        cases haf : m.add_frame f with
        | error e => simp [runFrames, hfx, hin, haf]
        | ok m2 => simp [runFrames, hfx, hin, haf, ih m2]

/-- Claim C2 (corrected), counterexample: after a First frame has started a
multi-frame message (3 bytes accumulated, incomplete), a second Single
frame is *accepted* — it replaces the payload and completes the message, so
`parse_isotp_frames` returns a payload instead of failing as the claim
demands for a second Single frame after the message has started. -/
theorem C2_counterexample :
    runFrames IsoTpMessage.initial ["1005AABBCC"] =
      .ok ⟨[0xAA, 0xBB, 0xCC], some 5, false, 1⟩ ∧
    parse_isotp_frames ["1005AABBCC", "03AABBCC"] = .ok [0xAA, 0xBB, 0xCC] := by
  decide

/-- Claim C2 (corrected), amended claim: if any frame of the list decodes to
bytes that violate an assembler invariant in the state reached by the
preceding frames — empty frame bytes; any (constructible) frame after the
message is complete; a Consecutive frame with no First frame seen or with
the wrong sequence number; a First frame after data has accumulated — then
`parse_isotp_frames` fails with `ValueError` and returns no payload.
(A Single frame before completion is not a violation: the code accepts it.) -/
theorem C2_violation_fails (ss pre post : List String) (bad : String)
    (m : IsoTpMessage) (bbs : List Nat)
    (hss : ss = pre ++ bad :: post)
    (hpre : runFrames IsoTpMessage.initial pre = .ok m)
    (hbad : fromhex bad = .ok bbs)
    (hv : IsoTpViolation m bbs) :
    ∃ msg, parse_isotp_frames ss = .error (.valueError msg) := by
  subst hss
  have herr : ∃ msg, runFrames m (bad :: post) = .error (.valueError msg) := by
    rcases hv with hempty | ⟨hcomp, f, hf⟩ | ⟨hnc, b0, rest, hbs, h2, hcase⟩ |
      ⟨hnc, b0, b1, rest, hbs, h1, hpl⟩
    · subst hempty
      refine ⟨"Frame data cannot be empty", ?_⟩
      simp [runFrames, hbad, IsoTpFrame.init]
    · refine ⟨"Message is already complete", ?_⟩
      simp only [runFrames, hbad, hf]
      simp [IsoTpMessage.add_frame, hcomp]
    · subst hbs
      have h0 : ¬ highNibble b0 = 0 := by omega
      have h1 : ¬ highNibble b0 = 1 := by omega
      cases he : m.expected_length with
      | none =>
        refine ⟨"Consecutive frame received without first frame", ?_⟩
        simp [runFrames, hbad, IsoTpFrame.init, h0, h1, h2,
              IsoTpMessage.add_frame, hnc, he]
      | some el =>
        rcases hcase with hnone | hmis
        · rw [he] at hnone; cases hnone
        · refine ⟨"Expected sequence number mismatch", ?_⟩
          simp [runFrames, hbad, IsoTpFrame.init, h0, h1, h2,
                IsoTpMessage.add_frame, hnc, he, hmis]
    · subst hbs
      have h0 : ¬ highNibble b0 = 0 := by omega
      refine ⟨"First frame received but message already started", ?_⟩
      simp only [runFrames, hbad]
      simp only [IsoTpFrame.init, h0, h1, if_false, if_pos, if_true]
      have hlen : m.payload.length > 0 := List.length_pos.mpr hpl
      simp [IsoTpMessage.add_frame, hnc, h0, h1, hlen]
  obtain ⟨msg, hmsg⟩ := herr
  refine ⟨msg, ?_⟩
  unfold parse_isotp_frames
  rw [runFrames_append, hpre]
  simp only [hmsg]

/-- Witness for C2: a Consecutive frame with no preceding First frame. -/
theorem C2_violation_fails_witness :
    ∃ msg, parse_isotp_frames ["2100"] = .error (.valueError msg) :=
  C2_violation_fails ["2100"] [] [] "2100" IsoTpMessage.initial [0x21, 0x00]
    rfl rfl (by decide)
    (Or.inr (Or.inr (Or.inl ⟨rfl, 0x21, [0x00], rfl, by decide, Or.inl rfl⟩)))

/-- Every error produced by `_parse_response` is an
`InvalidResponseException` (the spec's `ResponseMalformed`). -/
theorem parse_response_error_shape (s : String) (e : DriverError)
    (h : parse_response s = .error e) : ∃ msg, e = .invalidResponse msg := by
  unfold parse_response at h
  simp only [] at h
  split at h
  · split at h
    · cases h
    · simp only [Except.error.injEq] at h
      exact ⟨_, h.symm⟩
  · split at h
    · cases h
    · simp only [Except.error.injEq] at h
      exact ⟨_, h.symm⟩

/-- The reply-processing pipeline of `send_message` never raises
`NotConnectedException`: that error is raised only by the up-front
connection check. -/
theorem processResponse_ne_notConnected (s : String) :
    processResponse s ≠ .error .notConnected := by
  unfold processResponse
  split
  · simp
  · cases hp : parse_response s with
    | error e =>
      obtain ⟨msg, rfl⟩ := parse_response_error_shape s e hp
      simp
    | ok raw =>
      cases hq : parse_uds_response raw with
      | error pe => simp [hq]
      | ok r => simp [hq]

/-- Claim C6 (confirmed).  Any adapter reply containing one of the nine
error/status tokens makes `send_message` fail with `NoResponseException`
carrying the raw reply; in particular the scripted reply
`"SEARCHING...\rSTOPPED\r>"` to `send_message(0x7E4, 0x220101)` fails with
`NoResponseException`. -/
theorem C6_error_tokens :
    (∀ s : String, (∃ kw ∈ error_keywords, pyIn kw s = true) →
      processResponse s = .error (.noResponse s)) ∧
    (ELM327.sendMessage
        ⟨some ⟨[("ATSH7E4", "OK\r\r>"), ("220101", "SEARCHING...\rSTOPPED\r>")], [], ""⟩⟩
        (some 0x7E4) 0x220101).1 =
      .error (.noResponse "SEARCHING...\rSTOPPED\r>") := by
  constructor
  · intro s hkw
    have hck : checkErrorKeywords s = true := by
      obtain ⟨kw, hmem, hin⟩ := hkw
      exact List.any_eq_true.mpr ⟨kw, hmem, hin⟩
    simp [processResponse, hck]
  · decide

/-- Witness for C6: a reply that is exactly the token `NO DATA`. -/
theorem C6_error_tokens_witness :
    processResponse "NO DATA" = .error (.noResponse "NO DATA") :=
  C6_error_tokens.1 "NO DATA" ⟨"NO DATA", by decide, by decide⟩

/-- Claim C7 (confirmed).  `_connect` on a fresh controller writes exactly the
six command lines `ATZ`, `ATE0`, `ATL0`, `ATS0`, `ATH1`, `ATSP0`, each
terminated by CR, in that order — whatever the adapter replies — and
afterwards the connection is established: a subsequent `send_message` never
raises `NotConnectedException`. -/
theorem C7_connect_sequence (responses : List (String × String)) :
    (ELM327.connectSerial responses).written =
      ["ATZ\r", "ATE0\r", "ATL0\r", "ATS0\r", "ATH1\r", "ATSP0\r"] ∧
    ∀ (can_id : Option Nat) (pid : Nat),
      (ELM327.sendMessage (ELM327.connect responses) can_id pid).1 ≠
        .error .notConnected := by
  constructor
  · simp [ELM327.connectSerial, sendCommand, MockSerial.write, MockSerial.read]
  · intro can_id pid
    cases can_id with
    | none =>
      simp only [ELM327.connect, ELM327.sendMessage]
      exact processResponse_ne_notConnected _
    | some cid =>
      simp only [ELM327.connect, ELM327.sendMessage]
      exact processResponse_ne_notConnected _

/-- Claim C10 (confirmed).  If a reply yields no CAN-ID-prefixed frame lines
and its cleaned text reduces to the empty string, `_parse_response` returns
an empty byte sequence (the empty string hex-decodes to zero bytes) instead
of failing with `InvalidResponseException`, and `send_message` — once the
reply passes the error-token scan, which the claim's "subsequently"
presupposes — fails with the UDS decoder's `ValueError` for an empty
payload (the spec's `UdsMalformed`), not with `InvalidResponseException`. -/
theorem C10_empty_clean_reply (s : String)
    (hframes : extractFrames (cleanResponse s) = [])
    (hclean : responseClean (cleanResponse s) = "")
    (hkw : checkErrorKeywords s = false) :
    parse_response s = .ok [] ∧
    processResponse s =
      .error (.pyError (.valueError "Payload too short for UDS response")) := by
  have h1 : parse_response s = .ok [] := by
    unfold parse_response
    simp [hframes, hclean, fromhex, fromhexChars]
  refine ⟨h1, ?_⟩
  simp [processResponse, hkw, h1, parse_uds_response]

/-- Witness for C10: the reply `"OK\r\r>"` (informational token plus
prompt). -/
theorem C10_empty_clean_reply_witness :
    parse_response "OK\r\r>" = .ok [] ∧
    processResponse "OK\r\r>" =
      .error (.pyError (.valueError "Payload too short for UDS response")) :=
  C10_empty_clean_reply "OK\r\r>" (by decide) (by decide) (by decide)

/-- The frame-feeding loop over strings agrees with the loop over their
decoded bytes when every string hex-decodes. -/
theorem runFrames_eq_addFrames (ss : List String) :
    ∀ (bss : List (List Nat)) (m : IsoTpMessage), decodeFrames ss = .ok bss →
      runFrames m ss = addFrames m bss := by
  induction ss with
  | nil =>
    intro bss m h
    simp only [decodeFrames, Except.ok.injEq] at h
    subst h
    rfl
  | cons s rest ih =>
    intro bss m h
    cases hfx : fromhex s with
    | error e => simp [decodeFrames, hfx] at h
    | ok bs =>
      cases hdr : decodeFrames rest with
      | error e => simp [decodeFrames, hfx, hdr] at h
      | ok t =>
        simp only [decodeFrames, hfx, hdr, Except.ok.injEq] at h
        subst h
        simp only [runFrames, addFrames, hfx]
        cases hin : IsoTpFrame.init bs with
        | error e => rfl
        | ok f =>
          simp only []
          cases haf : m.add_frame f with
          | error e => rfl
          | ok m2 => exact ih t m2 hdr

/-- Running the assembler over a `ConsecChain` from a matching incomplete
state completes the message with a payload of exactly the declared
length `L` (the final Consecutive frame is truncated). -/
theorem consecChain_run (rest : List (List Nat)) (seq acc L : Nat)
    (hc : ConsecChain rest seq acc L) :
    ∀ m : IsoTpMessage, acc < L →
      m.payload.length = acc → m.expected_length = some L →
      m.is_complete = false → m.next_sequence = seq →
      ∃ m', addFrames m rest = .ok m' ∧ m'.is_complete = true ∧
        m'.payload.length = L := by
  induction hc with
  | done seq acc L hle =>
    intro m hlt _ _ _ _
    exact absurd hlt (by omega)
  | step b0 ds rest' seq acc L hacc h2 hseq htail ih =>
    intro m hlt hp he hcm hs
    have h0 : ¬ highNibble b0 = 0 := by omega
    have h1 : ¬ highNibble b0 = 1 := by omega
    have hinit : IsoTpFrame.init (b0 :: ds) =
        .ok ⟨2, ds, some (lowNibble b0), none⟩ := by
      simp [IsoTpFrame.init, h0, h1, h2]
    have hne : ¬ ((some (lowNibble b0) : Option Nat) ≠ some m.next_sequence) := by
      simp [hseq, hs]
    have hlapp : (m.payload ++ ds).length = acc + ds.length := by
      simp [List.length_append, hp]
    by_cases hle : L ≤ (m.payload ++ ds).length
    · have hles : L ≤ m.payload.length + ds.length := by
        rw [← List.length_append]; exact hle
      have hadd : m.add_frame ⟨2, ds, some (lowNibble b0), none⟩ =
          .ok ⟨(m.payload ++ ds).take L, some L, true, (m.next_sequence + 1) % 16⟩ := by
        simp [IsoTpMessage.add_frame, hcm, h0, h1, h2, he, hne, hle, hles]
      have hrest : rest' = [] := by
        cases htail with
        | done _ _ _ _ => rfl
        | step b0' ds' rest'' _ _ _ hacc' _ _ _ => exact absurd hacc' (by omega)
      subst hrest
      refine ⟨⟨(m.payload ++ ds).take L, some L, true, (m.next_sequence + 1) % 16⟩,
        ?_, rfl, ?_⟩
      · simp [addFrames, hinit, hadd]
      · simp only [List.length_take]
        omega
    · have hlts : ¬ L ≤ m.payload.length + ds.length := by
        rw [← List.length_append]; exact hle
      have hadd : m.add_frame ⟨2, ds, some (lowNibble b0), none⟩ =
          .ok ⟨m.payload ++ ds, some L, false, (m.next_sequence + 1) % 16⟩ := by
        simp [IsoTpMessage.add_frame, hcm, h0, h1, h2, he, hne, hle, hlts]
      have hlt' : acc + ds.length < L := by omega
      obtain ⟨m', hm', hc', hl'⟩ :=
        ih ⟨m.payload ++ ds, some L, false, (m.next_sequence + 1) % 16⟩
          hlt' hlapp rfl rfl (by simp [hs])
      refine ⟨m', ?_, hc', hl'⟩
      simp [addFrames, hinit, hadd, hm']

/-- Feeding a well-formed message to the assembler succeeds, completes, and
produces a payload of length `wfLen bss L`. -/
theorem addFrames_wellformed (bss : List (List Nat)) (L : Nat)
    (hwf : WellFormedIsoTp bss L) :
    ∃ m', addFrames IsoTpMessage.initial bss = .ok m' ∧ m'.is_complete = true ∧
      m'.payload.length = wfLen bss L := by
  cases hwf with
  | single b0 ds h0 hlen =>
    have hinit : IsoTpFrame.init (b0 :: ds) =
        .ok ⟨0, ds.take (lowNibble b0), none, some (lowNibble b0)⟩ := by
      simp [IsoTpFrame.init, h0]
    have htake : ds.take (lowNibble b0) = ds :=
      List.take_of_length_le (by omega)
    refine ⟨⟨ds, some (lowNibble b0), true, 1⟩, ?_, rfl, ?_⟩
    · simp [addFrames, hinit, htake, IsoTpMessage.add_frame, IsoTpMessage.initial]
    · simp [wfLen, h0, hlen]
  | multi b0 b1 ds rest h1 hchain =>
    have h0 : ¬ highNibble b0 = 0 := by omega
    have hinit : IsoTpFrame.init (b0 :: b1 :: ds) =
        .ok ⟨1, ds, none, some ((lowNibble b0 <<< 8) ||| b1)⟩ := by
      simp [IsoTpFrame.init, h0, h1]
    cases hchain with
    | done _ _ _ hle =>
      have hcdec : decide ((lowNibble b0 <<< 8) ||| b1 ≤ ds.length) = true :=
        decide_eq_true hle
      refine ⟨⟨ds, some ((lowNibble b0 <<< 8) ||| b1), true, 1⟩,
        ?_, rfl, ?_⟩
      · simp [addFrames, hinit, IsoTpMessage.add_frame, IsoTpMessage.initial, hcdec, hle]
      · simp only [wfLen, List.headD, h1, if_pos, List.length_cons]
        omega
    | step b0' ds' rest'' _ _ _ hacc h2' hseq' htail' =>
      have hcdec : decide ((lowNibble b0 <<< 8) ||| b1 ≤ ds.length) = false :=
        decide_eq_false (not_le.mpr hacc)
      have hadd : IsoTpMessage.initial.add_frame
          ⟨1, ds, none, some ((lowNibble b0 <<< 8) ||| b1)⟩ =
          .ok ⟨ds, some ((lowNibble b0 <<< 8) ||| b1), false, 1⟩ := by
        simp [IsoTpMessage.add_frame, IsoTpMessage.initial, hcdec]
      obtain ⟨m', hm', hc', hl'⟩ :=
        consecChain_run ((b0' :: ds') :: rest'') 1 ds.length
          ((lowNibble b0 <<< 8) ||| b1)
          (ConsecChain.step b0' ds' rest'' 1 ds.length _ hacc h2' hseq' htail')
          ⟨ds, some ((lowNibble b0 <<< 8) ||| b1), false, 1⟩
          hacc rfl rfl rfl rfl
      refine ⟨m', ?_, hc', ?_⟩
      · simp only [addFrames, hinit, hadd]
        exact hm'
      · rw [hl']
        rfl

/-- Claim C1 (corrected), counterexample: `["1002AABBCC"]` is a well-formed
message by the claim's criterion (a First frame whose accumulated data, 3
bytes, reaches the declared length 2, followed by no Consecutive frames),
yet `parse_isotp_frames` returns a 3-byte payload, not one of the declared
length 2. -/
theorem C1_counterexample :
    WellFormedIsoTp [[0x10, 0x02, 0xAA, 0xBB, 0xCC]] 2 ∧
    decodeFrames ["1002AABBCC"] = .ok [[0x10, 0x02, 0xAA, 0xBB, 0xCC]] ∧
    parse_isotp_frames ["1002AABBCC"] = .ok [0xAA, 0xBB, 0xCC] ∧
    ([0xAA, 0xBB, 0xCC] : List Nat).length ≠ 2 := by
  refine ⟨?_, by decide, by decide, by decide⟩
  exact WellFormedIsoTp.multi 0x10 0x02 [0xAA, 0xBB, 0xCC] []
    (by decide) (ConsecChain.done 1 3 2 (by decide))

/-- Claim C1 (corrected), amended claim: on every well-formed frame list,
`parse_isotp_frames` succeeds, and the payload length is exactly the
declared length — except for a message consisting of a First frame alone,
whose untruncated inline data is returned whole even when it exceeds the
declared length (`wfLen`). -/
theorem C1_wellformed_length (ss : List String) (bss : List (List Nat)) (L : Nat)
    (hdec : decodeFrames ss = .ok bss) (hwf : WellFormedIsoTp bss L) :
    ∃ p, parse_isotp_frames ss = .ok p ∧ p.length = wfLen bss L := by
  obtain ⟨m', hm', hc', hl'⟩ := addFrames_wellformed bss L hwf
  refine ⟨m'.payload, ?_, hl'⟩
  unfold parse_isotp_frames
  rw [runFrames_eq_addFrames ss bss IsoTpMessage.initial hdec, hm']
  simp [IsoTpMessage.get_payload, hc']

/-- Witness for C1: a First frame declaring 4 bytes with 2 inline, completed
by one Consecutive frame; the payload has exactly the declared length 4. -/
theorem C1_wellformed_length_witness :
    ∃ p, parse_isotp_frames ["1004AABB", "21CCDD"] = .ok p ∧
      p.length = wfLen [[0x10, 0x04, 0xAA, 0xBB], [0x21, 0xCC, 0xDD]] 4 := by
  refine C1_wellformed_length ["1004AABB", "21CCDD"]
    [[0x10, 0x04, 0xAA, 0xBB], [0x21, 0xCC, 0xDD]] 4 (by decide) ?_
  exact WellFormedIsoTp.multi 0x10 0x04 [0xAA, 0xBB] [[0x21, 0xCC, 0xDD]]
    (by decide)
    (ConsecChain.step 0x21 [0xCC, 0xDD] [] 1 2 4 (by decide) (by decide) (by decide)
      (ConsecChain.done 2 4 4 (by decide)))

/-- Witness for C7: the write log and the established connection at a
concrete script. -/
theorem C7_connect_sequence_witness :
    (ELM327.connectSerial [("ATZ", "ELM327 v1.5\r\r>")]).written =
      ["ATZ\r", "ATE0\r", "ATL0\r", "ATS0\r", "ATH1\r", "ATSP0\r"] ∧
    (ELM327.sendMessage (ELM327.connect [("ATZ", "ELM327 v1.5\r\r>")]) none 0x0C).1 ≠
      .error .notConnected :=
  ⟨(C7_connect_sequence [("ATZ", "ELM327 v1.5\r\r>")]).1,
    (C7_connect_sequence [("ATZ", "ELM327 v1.5\r\r>")]).2 none 0x0C⟩
